import Mathlib

/-!
Verification development for the opspulse distributed routine scheduler.

The definitions below are a shallow embedding of the Python source:
  * `src/api/src/supabase_admin.py` — the store operations on a routine row
    (`try_lock_routine`, `finish_scheduled_run`, `release_lock`,
    `touch_last_run`).  Each PostgREST PATCH with an `id`/`workspace_id`/
    filter equality is modelled as a conditional update of a single
    `Routine` record addressed by those keys.
  * `src/api/function_app.py` — the pure helpers `_to_minute`,
    `_compute_next_run_scheduled`, `_get_secret_value`, `_truncate`,
    `_execute_http_routine`, and the store effect of the manual run
    endpoint `run_routine`.
  * `src/api/src/security.py` — `validate_headers`.

UTC instants are modelled as natural numbers counting seconds, so one
minute is 60 and `datetime.replace(second=0, microsecond=0)` is
truncation to a multiple of 60.  The network is modelled as an oracle
`HttpResult` describing what the single `httpx.request` call would do,
and the process environment as a function `String → Option String`.
-/

namespace OpsPulse

/-- Status of a run record: `SUCCESS` or `FAIL` (source: run payloads in
`function_app.py`). -/
inductive RunStatus where
  | SUCCESS
  | FAIL
deriving DecidableEq

/-- How a run was triggered (source: `triggered_by` field of run payloads). -/
inductive TriggeredBy where
  | MANUAL
  | SCHEDULE
deriving DecidableEq

/-- Oracle for the single `httpx.request` call in `_execute_http_routine`:
the transport either yields a response with a status code, raises
`httpx.TimeoutException`, or raises some other exception with a message. -/
inductive HttpResult where
  | ok (code : Nat)
  | timeout
  | exc (msg : String)
deriving DecidableEq

/-- One routine row, with the columns the verified operations read or
write (source: the `routines` table as used by `supabase_admin.py` and
`function_app.py`).  `interval_minutes = 0` models a missing or null
value, matching `int(routine.get("interval_minutes") or 5)`. -/
structure Routine where
  id : String
  workspace_id : String
  name : String
  interval_minutes : Nat
  endpoint_url : String
  http_method : Option String
  headers_json : List (String × String)
  auth_mode : Option String
  secret_ref : Option String
  is_active : Bool
  next_run_at : Option Nat
  last_run_at : Option Nat
  lock_until : Option Nat
  locked_by : Option String
  updated_at : Nat
deriving DecidableEq

/-- One immutable run record (source: `routine_runs` insert payloads in
`function_app.py`). -/
structure RunRecord where
  routine_id : String
  triggered_by : TriggeredBy
  status : RunStatus
  http_status : Option Nat
  duration_ms : Nat
  error_message : Option String
  started_at : Nat
  finished_at : Nat
deriving DecidableEq

/-- Result dict of `_execute_http_routine` (`function_app.py` lines
130-205): every code path returns exactly these six keys. -/
structure RunOutcome where
  status : RunStatus
  http_status : Option Nat
  duration_ms : Nat
  error_message : Option String
  started_at : Nat
  finished_at : Nat
deriving DecidableEq

/-- Python `str.strip()`: drop whitespace from both ends of the string
(modelled on the code-point list of the string). -/
def pyStrip (s : String) : String :=
  String.mk (((s.data.dropWhile Char.isWhitespace).reverse.dropWhile Char.isWhitespace).reverse)

/-- Python `str.lower()` at the ASCII level (modelled on the code-point
list of the string). -/
def pyLower (s : String) : String := String.mk (s.data.map Char.toLower)

/-- Python `prefix in`/`str.startswith` test on code-point lists. -/
def strStartsWith (s p : String) : Bool := s.data.take p.data.length == p.data

/-- Python `c in s` membership test for a single character. -/
def strContainsChar (s : String) (c : Char) : Bool := s.data.contains c

/-- `_truncate` (`function_app.py` lines 36-40) at its default maximum
length of 180, on a present string. -/
def truncate180 (s : String) : String :=
  if s.length ≤ 180 then s else String.mk (s.data.take 180)

/-- `_to_minute` (`function_app.py` lines 97-99): truncate an instant to
the whole minute (seconds and sub-seconds become zero). -/
def toMinute (t : Nat) : Nat := t / 60 * 60

/-- The catch-up loop of `_compute_next_run_scheduled` (`function_app.py`
lines 123-124): `while next_dt <= now_dt: next_dt = next_dt + interval`.
The guard `0 < step` only encodes termination of the loop; at every call
site `step = 60 * interval` with `interval ≥ 1`, so it is always true. -/
def catchUp (next now step : Nat) : Nat :=
  if _h : 0 < step ∧ next ≤ now then catchUp (next + step) now step else next
termination_by now + 1 - next
decreasing_by omega

/-- `_compute_next_run_scheduled` (`function_app.py` lines 102-127):
anchor at `routine.next_run_at` (falling back to `now` when absent or
unparseable), add the interval, catch up past `now`, truncate to the
minute.  `interval_minutes = 0` models the `or 5` fallback. -/
def computeNextRunScheduled (r : Routine) (now : Nat) : Nat :=
  toMinute
    (catchUp
      (r.next_run_at.getD now + 60 * (if r.interval_minutes = 0 then 5 else r.interval_minutes))
      now
      (60 * (if r.interval_minutes = 0 then 5 else r.interval_minutes)))

/-- `_get_secret_value` (`function_app.py` lines 67-77): a falsy
`secret_ref` yields nothing; otherwise look up env var `SECRET_<ref>`,
or `<ref>` itself when it already starts with that marker. -/
def getSecretValue (secret_ref : Option String) (env : String → Option String) : Option String :=
  match secret_ref with
  | none => none
  | some s =>
    if s = "" then none
    else if strStartsWith s ("SECRET_") then env s
    else env (("SECRET_" ++ s))

/-- Python dict assignment `headers[k] = v` on an association list whose
keys are unique: replace the value in place, or append a new entry. -/
def setHeader : List (String × String) → String → String → List (String × String)
  | [], k, v => [(k, v)]
  | (k0, v0) :: rest, k, v =>
    if k0 = k then (k, v) :: rest else (k0, v0) :: setHeader rest k v

/-- Python dict read `headers.get(k)` on an association list. -/
def lookupHeader : List (String × String) → String → Option String
  | [], _ => none
  | (k0, v0) :: rest, k => if k0 = k then some v0 else lookupHeader rest k

/-- The header-resolution prefix of `_execute_http_routine`
(`function_app.py` lines 143-159): start from `headers_json`; under
`auth_mode = "SECRET_REF"` resolve the secret — a missing or empty
secret (`if not token`) yields `none`, short-circuiting before any
request; otherwise set `Authorization: Bearer <secret>`.  A missing or
empty `auth_mode` reads as `"NONE"` (`routine.get("auth_mode") or
"NONE"`). -/
def resolveEffectiveHeaders (r : Routine) (env : String → Option String) :
    Option (List (String × String)) :=
  if (match r.auth_mode with
      | none => "NONE"
      | some a => if a = "" then "NONE" else a) = "SECRET_REF" then
    match getSecretValue r.secret_ref env with
    | none => none
    | some t =>
      if t = "" then none
      else some (setHeader r.headers_json ("Authorization") (("Bearer " ++ t)))
  else some r.headers_json

/-- `_execute_http_routine` (`function_app.py` lines 130-205).  The
clock readings are the oracle parameters `started`, `finished`, `dur`;
the transport is the oracle `hres`, consulted only when the header
resolution did not short-circuit.  Every branch of the Python function
returns a full outcome dict; no branch raises. -/
def executeHttpRoutine (r : Routine) (env : String → Option String) (hres : HttpResult)
    (started finished dur : Nat) : RunOutcome :=
  match resolveEffectiveHeaders r env with
  | none =>
    { status := RunStatus.FAIL, http_status := none, duration_ms := dur,
      error_message := some ("missing_secret_ref_value"),
      started_at := started, finished_at := finished }
  | some _ =>
    match hres with
    | HttpResult.ok code =>
      if 200 ≤ code ∧ code < 300 then
        { status := RunStatus.SUCCESS, http_status := some code, duration_ms := dur,
          error_message := none, started_at := started, finished_at := finished }
      else
        { status := RunStatus.FAIL, http_status := some code, duration_ms := dur,
          error_message := some (truncate180 (("http_error:" ++ Nat.repr code))),
          started_at := started, finished_at := finished }
    | HttpResult.timeout =>
      { status := RunStatus.FAIL, http_status := none, duration_ms := dur,
        error_message := some ("timeout"), started_at := started, finished_at := finished }
    | HttpResult.exc msg =>
      { status := RunStatus.FAIL, http_status := none, duration_ms := dur,
        error_message := some (truncate180 (("exception:" ++ msg))),
        started_at := started, finished_at := finished }

/-- The lock-availability predicate of `try_lock_routine`
(`supabase_admin.py` line 236): PostgREST filter
`or=(lock_until.is.null,lock_until.lt.now)`. -/
def lockFree (lock_until : Option Nat) (now : Nat) : Bool :=
  match lock_until with
  | none => true
  | some t => decide (t < now)

/-- The row update performed when the `try_lock_routine` PATCH matches
(`supabase_admin.py` lines 227-239): `lock_until := now + lease_seconds`,
`locked_by := requester`, `updated_at := now`. -/
def applyLease (s : Routine) (now lease : Nat) (req : String) : Routine :=
  { s with lock_until := some (now + lease), locked_by := some req, updated_at := now }

/-- `try_lock_routine` (`supabase_admin.py` lines 219-274).  The
conditional PATCH updates the row exactly when `lockFree` holds.  When
the response body echoes the matched row (`echo = true` and the filter
matched), that row is returned; otherwise the fallback re-read (lines
258-272) returns the current row exactly when its `locked_by` equals
the requester.  Returns the resulting row state and the returned row. -/
def try_lock_routine (echo : Bool) (s : Routine) (now lease : Nat) (req : String) :
    Routine × Option Routine :=
  let matched := lockFree s.lock_until now
  let s2 := if matched then applyLease s now lease req else s
  if matched && echo then (s2, some s2)
  else (s2, if s2.locked_by = some req then some s2 else none)

/-- `finish_scheduled_run` (`supabase_admin.py` lines 277-302): PATCH
filtered by `locked_by = eq.<requester>`; when it matches it sets the
timing fields, clears both lock fields and stamps `updated_at`; when the
filter fails to match the row is untouched and no error is raised. -/
def finish_scheduled_run (s : Routine) (locked_by : String) (last_run next_run : Nat) : Routine :=
  if s.locked_by = some locked_by then
    { s with last_run_at := some last_run, next_run_at := some next_run,
             lock_until := none, locked_by := none, updated_at := last_run }
  else s

/-- `release_lock` (`supabase_admin.py` lines 304-316): same
`locked_by` filter; clears only the two lock fields. -/
def release_lock (s : Routine) (locked_by : String) : Routine :=
  if s.locked_by = some locked_by then
    { s with lock_until := none, locked_by := none }
  else s

/-- `touch_last_run` (`supabase_admin.py` lines 151-159): PATCH setting
`last_run_at` and `updated_at` to the given timestamp. -/
def touch_last_run (s : Routine) (ts : Nat) : Routine :=
  { s with last_run_at := some ts, updated_at := ts }

/-- Store effect of the manual run endpoint `run_routine`
(`function_app.py` lines 400-428), after the routine has been found:
execute the probe, insert a run with `triggered_by = MANUAL` carrying the
outcome fields, then best-effort `touch_last_run` with the outcome's
`finished_at` (`touchOk = false` models the swallowed exception of lines
423-426).  No lock field and no `next_run_at` is written on this path. -/
def run_routine (r : Routine) (runs : List RunRecord) (env : String → Option String)
    (hres : HttpResult) (started finished dur : Nat) (touchOk : Bool) :
    Routine × List RunRecord :=
  let o := executeHttpRoutine r env hres started finished dur
  let rec2 : RunRecord :=
    { routine_id := r.id, triggered_by := TriggeredBy.MANUAL, status := o.status,
      http_status := o.http_status, duration_ms := o.duration_ms,
      error_message := o.error_message, started_at := o.started_at,
      finished_at := o.finished_at }
  let r2 := if touchOk then touch_last_run r o.finished_at else r
  (r2, runs ++ [rec2])

/-- The lock invariant (I1) of the spec: `lock_until` is null exactly
when `locked_by` is null. -/
def lockInv (s : Routine) : Prop := s.lock_until = none ↔ s.locked_by = none

/-- `FORBIDDEN_HEADERS` (`security.py` lines 1-7). -/
def FORBIDDEN_HEADERS : List String :=
  ["authorization", "cookie", "set-cookie", "x-api-key", "x-auth-token"]

/-- The extra RFC-7230 token characters allowed by
`_is_valid_header_name` (`security.py` line 15), by code point:
`! # $ % & apostrophe * + - . ^ _ backtick | ~`. -/
def tcharSymbols : List Char :=
  [Char.ofNat 33, Char.ofNat 35, Char.ofNat 36, Char.ofNat 37, Char.ofNat 38,
   Char.ofNat 39, Char.ofNat 42, Char.ofNat 43, Char.ofNat 45, Char.ofNat 46,
   Char.ofNat 94, Char.ofNat 95, Char.ofNat 96, Char.ofNat 124, Char.ofNat 126]

/-- `_is_valid_header_name` (`security.py` lines 13-16): every character
is alphanumeric or one of the token symbols.  `ch.isalnum()` is modelled
at the ASCII level by `Char.isAlphanum`. -/
def isValidHeaderName (name : String) : Bool :=
  name.data.all (fun c => c.isAlphanum || tcharSymbols.contains c)

/-- The normalised key the checks of `validate_headers` are applied to
(`security.py` line 32): `k.strip().lower()`. -/
def normKey (k : String) : String := pyLower (pyStrip k)

/-- The per-entry body of the `validate_headers` loop (`security.py`
lines 32-47): `some <message>` models the raised `ValueError`, `none`
models falling through.  The key checks are applied to `normKey k`; the
value checks to `v` as stored. -/
def validateEntry (k v : String) : Option String :=
  if normKey k = "" then some ("header name cannot be empty")
  else if 100 < (normKey k).length then some ("header exceeds max length")
  else if !(isValidHeaderName (normKey k)) then some ("header has invalid name characters")
  else if FORBIDDEN_HEADERS.contains (normKey k) then some ("header is not allowed, sensitive")
  else if 4096 < v.length then some ("header exceeds max value length")
  else if strContainsChar v (Char.ofNat 10) || strContainsChar v (Char.ofNat 13) then
    some ("header has invalid characters")
  else none

/-- `validate_headers` (`security.py` lines 19-47) on a mapping given as
an association list: the first failing entry raises (`some <message>`);
a mapping whose entries all pass returns normally (`none`). -/
def validate_headers : List (String × String) → Option String
  | [] => none
  | (k, v) :: rest =>
    match validateEntry k v with
    | some e => some e
    | none => validate_headers rest

/-- Boolean form of what the code accepts for one entry: all checks pass
on the trimmed, lowercased key and the raw value. -/
def entryOk (k v : String) : Bool :=
  !(normKey k == "") && (normKey k).length ≤ 100 &&
  isValidHeaderName (normKey k) && !(FORBIDDEN_HEADERS.contains (normKey k)) &&
  v.length ≤ 4096 && !(strContainsChar v (Char.ofNat 10) || strContainsChar v (Char.ofNat 13))

/-- Modelled from the claim wording of C9, for comparison with the code:
the same per-entry rules with the key checks applied to the key exactly
as stored (the forbidden-name check case-insensitively). -/
def claimEntryOk (k v : String) : Bool :=
  !(k == "") && k.length ≤ 100 && isValidHeaderName k &&
  !(FORBIDDEN_HEADERS.contains (pyLower k)) &&
  v.length ≤ 4096 && !(strContainsChar v (Char.ofNat 10)) && !(strContainsChar v (Char.ofNat 13))

/-- The changes a PATCH body can carry, after pydantic validation with
`exclude_unset`/`exclude_none` (source: `RoutineUpdate` in
`schemas.py`); `next_run_at` is not a settable field. -/
structure RoutineUpdate where
  name : Option String
  interval_minutes : Option Nat
  endpoint_url : Option String
  http_method : Option String
  headers_json : Option (List (String × String))
  auth_mode : Option String
  secret_ref : Option String
  is_active : Option Bool
deriving DecidableEq

/-- The routine row after `patch_routine` (`function_app.py` lines
330-354) assembles and applies the changes dict: each present field
overwrites the column; when `interval_minutes` is present the handler
additionally sets `next_run_at := toMinute (now + interval)` (lines
341-343); `updated_at` is always stamped (line 345). -/
def applyRoutineUpdate (r : Routine) (u : RoutineUpdate) (now : Nat) : Routine :=
  { r with
    name := u.name.getD r.name
    endpoint_url := u.endpoint_url.getD r.endpoint_url
    http_method := match u.http_method with | some m => some m | none => r.http_method
    headers_json := u.headers_json.getD r.headers_json
    auth_mode := match u.auth_mode with | some a => some a | none => r.auth_mode
    secret_ref := match u.secret_ref with | some sr => some sr | none => r.secret_ref
    is_active := u.is_active.getD r.is_active
    interval_minutes := u.interval_minutes.getD r.interval_minutes
    next_run_at := match u.interval_minutes with
      | some i => some (toMinute (now + 60 * i))
      | none => r.next_run_at
    updated_at := now }

/-- A concrete baseline routine row used by the witnesses and
counterexamples below: active, unlocked, five-minute interval,
`next_run_at` on a whole minute. -/
def sampleRoutine : Routine :=
  { id := "r-1", workspace_id := "ws-1", name := "ping", interval_minutes := 5,
    endpoint_url := "https://example.com/health", http_method := some ("GET"),
    headers_json := [], auth_mode := none, secret_ref := none, is_active := true,
    next_run_at := some 0, last_run_at := none, lock_until := none, locked_by := none,
    updated_at := 0 }

/-- A process environment with no secrets set. -/
def emptyEnv : String → Option String := fun _ => none

/-- Helper: the catch-up loop only ever adds whole multiples of its step. -/
theorem catchUp_exists (next now step : Nat) : ∃ j, catchUp next now step = next + j * step := by
  induction next, now, step using catchUp.induct with
  | case1 next now step h ih =>
    obtain ⟨j, hj⟩ := ih
    refine ⟨j + 1, ?_⟩
    rw [catchUp, dif_pos h, hj]
    ring
  | case2 next now step h =>
    refine ⟨0, ?_⟩
    rw [catchUp, dif_neg h]
    ring

/-- Helper: with a positive step the catch-up loop lands strictly past `now`. -/
theorem catchUp_gt (next now step : Nat) : 0 < step → now < catchUp next now step := by
  induction next, now, step using catchUp.induct with
  | case1 next now step h ih =>
    intro hstep
    rw [catchUp, dif_pos h]
    exact ih hstep
  | case2 next now step h =>
    intro hstep
    rw [catchUp, dif_neg h]
    by_cases hn : next ≤ now
    · exact absurd ⟨hstep, hn⟩ h
    · omega

/-- Helper: the routine state produced by `try_lock_routine`, separated
from the returned row. -/
theorem try_lock_routine_state (echo : Bool) (s : Routine) (now lease : Nat) (req : String) :
    (try_lock_routine echo s now lease req).1 =
      if lockFree s.lock_until now then applyLease s now lease req else s := by
  unfold try_lock_routine
  by_cases hf : lockFree s.lock_until now <;> cases echo <;> simp [hf]

/-- Helper: dict assignment followed by lookup of the same key yields the
assigned value. -/
theorem lookupHeader_setHeader (hs : List (String × String)) (k v : String) :
    lookupHeader (setHeader hs k v) k = some v := by
  induction hs with
  | nil => simp [setHeader, lookupHeader]
  | cons p rest ih =>
    obtain ⟨k0, v0⟩ := p
    unfold setHeader
    by_cases h : k0 = k
    · simp [h, lookupHeader]
    · simp [h, lookupHeader, ih]

/-- C1, counterexample: a routine held under a live lease (`lock_until =
1000 > now = 500`) whose `locked_by` already equals the requester.  The
conditional update does not match, yet `try_lock_routine` returns the
(unchanged) row through its re-read fallback instead of returning
nothing. -/
theorem try_lock_stale_echo_counterexample :
    lockFree (some 1000) 500 = false ∧
    try_lock_routine true
        { sampleRoutine with lock_until := some 1000, locked_by := some ("w-A") }
        500 45 ("w-A") =
      ({ sampleRoutine with lock_until := some 1000, locked_by := some ("w-A") },
       some { sampleRoutine with lock_until := some 1000, locked_by := some ("w-A") }) := by
  decide

/-- C1 (amended): `try_lock_routine` applies the lease exactly when
`lock_until` is null or `lock_until < now`, and then returns the
post-update row; when the condition does not match it leaves the row
unchanged and returns nothing unless the row's `locked_by` already
equals the requester, in which case the re-read fallback returns the
unchanged row. -/
theorem try_lock_routine_amended (echo : Bool) (s : Routine) (now lease : Nat) (req : String) :
    (lockFree s.lock_until now = true →
      try_lock_routine echo s now lease req =
        (applyLease s now lease req, some (applyLease s now lease req))) ∧
    (lockFree s.lock_until now = false →
      try_lock_routine echo s now lease req =
        (s, if s.locked_by = some req then some s else none)) := by
  constructor
  · intro h
    unfold try_lock_routine
    cases echo <;> simp [h, applyLease]
  · intro h
    unfold try_lock_routine
    simp [h]

/-- C1 witness: the amended theorem applied to the counterexample input. -/
theorem try_lock_routine_amended_witness :
    try_lock_routine false
        { sampleRoutine with lock_until := some 1000, locked_by := some ("w-A") }
        500 45 ("w-A") =
      ({ sampleRoutine with lock_until := some 1000, locked_by := some ("w-A") },
       some { sampleRoutine with lock_until := some 1000, locked_by := some ("w-A") }) := by
  have h := (try_lock_routine_amended false
      { sampleRoutine with lock_until := some 1000, locked_by := some ("w-A") }
      500 45 ("w-A")).2 (by decide)
  rw [h]
  decide

/-- C3: `finish_scheduled_run` called with a `locked_by` different from
the current owner filter matches nothing and leaves the row entirely
unchanged. -/
theorem finish_scheduled_run_stale_noop (s : Routine) (lb : String) (lr nr : Nat)
    (h : s.locked_by ≠ some lb) :
    finish_scheduled_run s lb lr nr = s := by
  unfold finish_scheduled_run
  rw [if_neg h]

/-- C3 witness: a routine leased by `w-A` is untouched by a finish from
`w-B`. -/
theorem finish_scheduled_run_stale_noop_witness :
    finish_scheduled_run
        { sampleRoutine with lock_until := some 1000, locked_by := some ("w-A") }
        ("w-B") 7 8 =
      { sampleRoutine with lock_until := some 1000, locked_by := some ("w-A") } :=
  finish_scheduled_run_stale_noop
    { sampleRoutine with lock_until := some 1000, locked_by := some ("w-A") }
    ("w-B") 7 8 (by decide)

/-- C4: each lock-mutating store operation preserves invariant (I1):
`lock_until` is null exactly when `locked_by` is null.  `try_lock`
sets both fields non-null together; `finish`/`release` clear both
together; non-matching filters leave the row unchanged. -/
theorem lock_ops_preserve_lockInv (echo : Bool) (s : Routine) (now lease : Nat)
    (req lb : String) (lr nr : Nat) (h : lockInv s) :
    lockInv (try_lock_routine echo s now lease req).1 ∧
    lockInv (finish_scheduled_run s lb lr nr) ∧
    lockInv (release_lock s lb) := by
  unfold lockInv at *
  refine ⟨?_, ?_, ?_⟩
  · rw [try_lock_routine_state]
    by_cases hf : lockFree s.lock_until now <;> simp [hf, applyLease, h]
  · unfold finish_scheduled_run
    by_cases hm : s.locked_by = some lb <;> simp [hm, h]
  · unfold release_lock
    by_cases hm : s.locked_by = some lb <;> simp [hm, h]

/-- C4 witness: invariant preservation at a concrete unlocked routine. -/
theorem lock_ops_preserve_lockInv_witness :
    lockInv (try_lock_routine true sampleRoutine 500 45 ("w-A")).1 ∧
    lockInv (finish_scheduled_run sampleRoutine ("w-A") 7 8) ∧
    lockInv (release_lock sampleRoutine ("w-A")) :=
  lock_ops_preserve_lockInv true sampleRoutine 500 45 ("w-A") ("w-A") 7 8
    (by constructor <;> intro <;> rfl)

/-- C2: for a routine with `interval_minutes ≥ 5` and a minute-aligned
(or absent) `next_run_at` — the data model stores `next_run_at`
truncated to the minute — the schedule advance returns an instant
strictly after `now`, lying on a whole minute, and congruent to
`next_run_at` modulo the interval (both measured in minutes). -/
theorem computeNextRun_advances (r : Routine) (now : Nat)
    (hI : 5 ≤ r.interval_minutes)
    (hA : r.next_run_at = none ∨ ∃ m, r.next_run_at = some (60 * m)) :
    now < computeNextRunScheduled r now ∧
    computeNextRunScheduled r now % 60 = 0 ∧
    ∀ a, r.next_run_at = some a →
      computeNextRunScheduled r now / 60 % r.interval_minutes =
        a / 60 % r.interval_minutes := by
  have hne : ¬ r.interval_minutes = 0 := by omega
  rcases hA with hA | ⟨m, hm⟩
  · unfold computeNextRunScheduled
    rw [hA]
    simp only [Option.getD_none, if_neg hne]
    have hcu : catchUp (now + 60 * r.interval_minutes) now (60 * r.interval_minutes) =
        now + 60 * r.interval_minutes := by
      rw [catchUp, dif_neg]
      rintro ⟨_, h2⟩
      omega
    rw [hcu]
    unfold toMinute
    refine ⟨by omega, by omega, ?_⟩
    intro a ha
    simp at ha
  · unfold computeNextRunScheduled
    rw [hm]
    simp only [Option.getD_some, if_neg hne]
    obtain ⟨j, hj⟩ := catchUp_exists (60 * m + 60 * r.interval_minutes) now
      (60 * r.interval_minutes)
    have hgt := catchUp_gt (60 * m + 60 * r.interval_minutes) now
      (60 * r.interval_minutes) (by omega)
    have hform : catchUp (60 * m + 60 * r.interval_minutes) now (60 * r.interval_minutes) =
        60 * (m + (1 + j) * r.interval_minutes) := by
      rw [hj]; ring
    rw [hform] at hgt ⊢
    unfold toMinute
    have hmod : (m + (1 + j) * r.interval_minutes) % r.interval_minutes =
        m % r.interval_minutes := Nat.add_mul_mod_self_right m (1 + j) r.interval_minutes
    generalize hK : m + (1 + j) * r.interval_minutes = K at hgt hmod
    have h1 : 60 * K / 60 * 60 = 60 * K := by omega
    rw [h1]
    refine ⟨hgt, by omega, ?_⟩
    intro a ha
    have haa : 60 * m = a := by simpa using ha
    subst haa
    have h2 : 60 * K / 60 = K := by omega
    have h3 : 60 * m / 60 = m := by omega
    rw [h2, h3, hmod]

/-- C2 witness: the advance applied to the sample routine (interval 5,
anchor at minute 0) at `now = 300` seconds. -/
theorem computeNextRun_advances_witness :
    300 < computeNextRunScheduled sampleRoutine 300 ∧
    computeNextRunScheduled sampleRoutine 300 % 60 = 0 := by
  have h := computeNextRun_advances sampleRoutine 300 (by decide) (Or.inr ⟨0, rfl⟩)
  exact ⟨h.1, h.2.1⟩

/-- C5: the probe is total — for every routine, environment and
transport behaviour (response, timeout, or any other exception) it
returns a full `RunOutcome` carrying the clock readings, whose status is
`SUCCESS` with no error message or `FAIL` with one. -/
theorem executeHttpRoutine_total (r : Routine) (env : String → Option String)
    (hres : HttpResult) (started finished dur : Nat) :
    (executeHttpRoutine r env hres started finished dur).started_at = started ∧
    (executeHttpRoutine r env hres started finished dur).finished_at = finished ∧
    (executeHttpRoutine r env hres started finished dur).duration_ms = dur ∧
    ((executeHttpRoutine r env hres started finished dur).status = RunStatus.SUCCESS ∧
       (executeHttpRoutine r env hres started finished dur).error_message = none ∨
     (executeHttpRoutine r env hres started finished dur).status = RunStatus.FAIL ∧
       (executeHttpRoutine r env hres started finished dur).error_message ≠ none) := by
  unfold executeHttpRoutine
  cases resolveEffectiveHeaders r env <;> cases hres <;> simp <;> split_ifs <;> simp

/-- C6: for a received response the outcome classifies `SUCCESS` exactly
for a 2xx status code, carries the code, and on failure the message
`http_error:<code>`; on timeout the outcome is `FAIL` with message
`timeout` and no status code.  (`code < 1000` reflects the three-digit
HTTP status line.) -/
theorem executeHttpRoutine_classification (r : Routine) (env : String → Option String)
    (started finished dur : Nat) (hs : List (String × String))
    (hr : resolveEffectiveHeaders r env = some hs) (code : Nat) (hcode : code < 1000) :
    ((executeHttpRoutine r env (HttpResult.ok code) started finished dur).status =
        RunStatus.SUCCESS ↔ 200 ≤ code ∧ code < 300) ∧
    (executeHttpRoutine r env (HttpResult.ok code) started finished dur).http_status =
      some code ∧
    (¬(200 ≤ code ∧ code < 300) →
      (executeHttpRoutine r env (HttpResult.ok code) started finished dur).error_message =
        some (("http_error:" ++ Nat.repr code))) ∧
    (200 ≤ code ∧ code < 300 →
      (executeHttpRoutine r env (HttpResult.ok code) started finished dur).error_message =
        none) ∧
    (executeHttpRoutine r env HttpResult.timeout started finished dur).status =
      RunStatus.FAIL ∧
    (executeHttpRoutine r env HttpResult.timeout started finished dur).error_message =
      some ("timeout") ∧
    (executeHttpRoutine r env HttpResult.timeout started finished dur).http_status = none := by
  have h11 : ("http_error:").length = 11 := by decide
  have hlen := Nat.repr_length code 3 (by norm_num) (by omega)
  have htr : truncate180 (("http_error:" ++ Nat.repr code)) =
      ("http_error:" ++ Nat.repr code) := by
    unfold truncate180
    rw [if_pos]
    rw [String.length_append]
    omega
  unfold executeHttpRoutine
  rw [hr]
  by_cases hcls : 200 ≤ code ∧ code < 300 <;> simp [hcls, htr]

/-- C6 witness: a 503 response on the sample routine classifies as
`FAIL` with message `http_error:503`, and a timeout as `FAIL` with
message `timeout`. -/
theorem executeHttpRoutine_classification_witness :
    (executeHttpRoutine sampleRoutine emptyEnv (HttpResult.ok 503) 1 2 3).status =
        RunStatus.FAIL ∧
    (executeHttpRoutine sampleRoutine emptyEnv (HttpResult.ok 503) 1 2 3).error_message =
        some ("http_error:503") ∧
    (executeHttpRoutine sampleRoutine emptyEnv HttpResult.timeout 1 2 3).error_message =
        some ("timeout") := by
  have h := executeHttpRoutine_classification sampleRoutine emptyEnv 1 2 3 []
    (by decide) 503 (by decide)
  refine ⟨?_, ?_, h.2.2.2.2.2.1⟩
  · have hst := h.1
    by_cases hS : (executeHttpRoutine sampleRoutine emptyEnv (HttpResult.ok 503) 1 2 3).status =
        RunStatus.SUCCESS
    · exact absurd (hst.1 hS) (by decide)
    · cases hq : (executeHttpRoutine sampleRoutine emptyEnv (HttpResult.ok 503) 1 2 3).status
      · exact absurd hq hS
      · rfl
  · have hmsg := h.2.2.1 (by decide)
    rw [hmsg]
    decide

/-- C7: under `auth_mode = SECRET_REF`, a missing (or empty) secret makes
the probe return the `missing_secret_ref_value` failure outcome and the
result is independent of the transport oracle — no request is issued;
when the secret resolves, the effective headers carry
`Authorization: Bearer <secret>`, overwriting any prior value. -/
theorem executeHttpRoutine_secret_ref (r : Routine) (env : String → Option String)
    (started finished dur : Nat) (hmode : r.auth_mode = some ("SECRET_REF")) :
    (resolveEffectiveHeaders r env = none →
      (∀ h1 h2 : HttpResult,
        executeHttpRoutine r env h1 started finished dur =
          executeHttpRoutine r env h2 started finished dur) ∧
      executeHttpRoutine r env HttpResult.timeout started finished dur =
        { status := RunStatus.FAIL, http_status := none, duration_ms := dur,
          error_message := some ("missing_secret_ref_value"),
          started_at := started, finished_at := finished }) ∧
    (∀ t, getSecretValue r.secret_ref env = some t → t ≠ "" →
      resolveEffectiveHeaders r env =
        some (setHeader r.headers_json ("Authorization") (("Bearer " ++ t))) ∧
      lookupHeader (setHeader r.headers_json ("Authorization") (("Bearer " ++ t)))
          ("Authorization") = some (("Bearer " ++ t))) := by
  constructor
  · intro hnone
    constructor
    · intro h1 h2
      unfold executeHttpRoutine
      rw [hnone]
    · unfold executeHttpRoutine
      rw [hnone]
  · intro t ht htne
    refine ⟨?_, lookupHeader_setHeader r.headers_json ("Authorization")
      (("Bearer " ++ t))⟩
    unfold resolveEffectiveHeaders
    rw [hmode, ht]
    simp [htne]

/-- C7 witness: a routine with `secret_ref = "X"` in an empty
environment yields the missing-secret failure outcome on any transport
oracle. -/
theorem executeHttpRoutine_secret_ref_witness :
    executeHttpRoutine
        { sampleRoutine with auth_mode := some ("SECRET_REF"), secret_ref := some ("X") }
        emptyEnv HttpResult.timeout 1 2 3 =
      { status := RunStatus.FAIL, http_status := none, duration_ms := 3,
        error_message := some ("missing_secret_ref_value"),
        started_at := 1, finished_at := 2 } :=
  ((executeHttpRoutine_secret_ref
      { sampleRoutine with auth_mode := some ("SECRET_REF"), secret_ref := some ("X") }
      emptyEnv 1 2 3 rfl).1 (by decide)).2

/-- C8, counterexample: after a manual run the routine differs from the
row with only `last_run_at` changed — `touch_last_run` also stamps
`updated_at` — so the manual path does not update *only* `last_run_at`. -/
theorem run_routine_only_last_run_counterexample :
    (run_routine sampleRoutine [] emptyEnv (HttpResult.ok 200) 1 5 2 true).1 ≠
      { sampleRoutine with last_run_at := some 5 } := by
  decide

/-- C8 (amended): the manual-run path acquires no lease and never
touches `next_run_at`: the routine keeps its `next_run_at`, `lock_until`
and `locked_by`; one run with `triggered_by = MANUAL` carrying the
outcome fields is appended; and on the routine only `last_run_at` and
the `updated_at` bookkeeping timestamp are written (nothing at all when
the best-effort touch fails). -/
theorem run_routine_manual_frame (r : Routine) (runs : List RunRecord)
    (env : String → Option String) (hres : HttpResult)
    (started finished dur : Nat) (touchOk : Bool) :
    (run_routine r runs env hres started finished dur touchOk).1.next_run_at =
      r.next_run_at ∧
    (run_routine r runs env hres started finished dur touchOk).1.lock_until =
      r.lock_until ∧
    (run_routine r runs env hres started finished dur touchOk).1.locked_by =
      r.locked_by ∧
    (touchOk = true →
      (run_routine r runs env hres started finished dur touchOk).1 =
        { r with
            last_run_at :=
              some (executeHttpRoutine r env hres started finished dur).finished_at
            updated_at :=
              (executeHttpRoutine r env hres started finished dur).finished_at }) ∧
    (touchOk = false →
      (run_routine r runs env hres started finished dur touchOk).1 = r) ∧
    (run_routine r runs env hres started finished dur touchOk).2 =
      runs ++
        [{ routine_id := r.id, triggered_by := TriggeredBy.MANUAL,
           status := (executeHttpRoutine r env hres started finished dur).status,
           http_status := (executeHttpRoutine r env hres started finished dur).http_status,
           duration_ms := (executeHttpRoutine r env hres started finished dur).duration_ms,
           error_message :=
             (executeHttpRoutine r env hres started finished dur).error_message,
           started_at := (executeHttpRoutine r env hres started finished dur).started_at,
           finished_at :=
             (executeHttpRoutine r env hres started finished dur).finished_at }] := by
  unfold run_routine touch_last_run
  cases touchOk <;> simp

/-- C8 witness: the frame theorem applied to the sample routine with a
200 response and a successful touch. -/
theorem run_routine_manual_frame_witness :
    (run_routine sampleRoutine [] emptyEnv (HttpResult.ok 200) 1 5 2 true).1 =
      { sampleRoutine with last_run_at := some 5, updated_at := 5 } := by
  have h := (run_routine_manual_frame sampleRoutine [] emptyEnv (HttpResult.ok 200)
    1 5 2 true).2.2.2.1 rfl
  rw [h]
  decide

/-- Helper: the per-entry check raises no error exactly when the entry
passes all checks on the normalised key and raw value. -/
theorem validateEntry_none_iff (k v : String) :
    validateEntry k v = none ↔ entryOk k v = true := by
  unfold validateEntry entryOk
  split_ifs with h1 h2 h3 h4 h5 h6 <;> simp_all [Nat.not_lt]
  rcases h6 with h | h <;> simp_all

/-- C9, counterexample: the key `" X "` is, as stored, outside the
RFC-7230 token grammar (it contains spaces), so the claim requires
rejection; the code strips and lowercases the key before checking and
accepts the mapping. -/
theorem validate_headers_as_stored_counterexample :
    validate_headers [((" X "), ("ok"))] = none ∧
    claimEntryOk (" X ") ("ok") = false := by
  decide

/-- C9 (amended): `validate_headers` accepts a mapping exactly when
every entry passes all the listed checks, with the key checks applied to
the whitespace-stripped, lowercased key (the value checks to the value
as stored) rather than to the key exactly as stored. -/
theorem validate_headers_amended (hs : List (String × String)) :
    validate_headers hs = none ↔ ∀ p ∈ hs, entryOk p.1 p.2 = true := by
  induction hs with
  | nil => simp [validate_headers]
  | cons p rest ih =>
    obtain ⟨k, v⟩ := p
    simp only [validate_headers]
    cases hE : validateEntry k v with
    | some e =>
      constructor
      · intro h
        exact absurd h (by simp)
      · intro h
        have hn := (validateEntry_none_iff k v).2 (h (k, v) (by simp))
        rw [hE] at hn
        exact absurd hn (by simp)
    | none =>
      rw [ih]
      constructor
      · intro h q hq
        rcases List.mem_cons.1 hq with hq1 | hq2
        · subst hq1
          exact (validateEntry_none_iff k v).1 hE
        · exact h q hq2
      · intro h q hq
        exact h q (List.mem_cons_of_mem _ hq)

/-- C10: a PATCH whose changes include `interval_minutes` also resets
`next_run_at` to `now` plus the new interval truncated to the minute,
while a PATCH without `interval_minutes` leaves `next_run_at`
unchanged. -/
theorem patch_interval_resets_next_run (r : Routine) (u : RoutineUpdate) (now : Nat) :
    (∀ i, u.interval_minutes = some i →
      (applyRoutineUpdate r u now).next_run_at = some (toMinute (now + 60 * i)) ∧
      (applyRoutineUpdate r u now).interval_minutes = i) ∧
    (u.interval_minutes = none →
      (applyRoutineUpdate r u now).next_run_at = r.next_run_at) := by
  unfold applyRoutineUpdate
  cases hi : u.interval_minutes <;> simp [hi]

/-- C10 witness: patching the sample routine with `interval_minutes = 7`
at `now = 130` seconds resets `next_run_at` to the minute-truncated
`130 + 420 = 550 → 540`. -/
theorem patch_interval_resets_next_run_witness :
    (applyRoutineUpdate sampleRoutine
        { name := none, interval_minutes := some 7, endpoint_url := none,
          http_method := none, headers_json := none, auth_mode := none,
          secret_ref := none, is_active := none } 130).next_run_at = some 540 := by
  have h := (patch_interval_resets_next_run sampleRoutine
      { name := none, interval_minutes := some 7, endpoint_url := none,
        http_method := none, headers_json := none, auth_mode := none,
        secret_ref := none, is_active := none } 130).1 7 rfl
  rw [h.1]
  decide

end OpsPulse
